import Mathlib

/-!
Verification of the Invoice AI-Powered Document Orchestrator (src/app.py)
against its natural-language specification.

The script is a thin orchestration layer: extract text from an uploaded
PDF/TXT, compose a prompt, call the Gemini model, parse its reply as JSON,
and optionally POST a payload to an n8n webhook and normalize the reply.
External collaborators (the pdfplumber/fitz libraries, the Gemini service,
the HTTP transport) are modelled as explicit outcome parameters; the pure
transformations of app.py (string cleaning, truncation, prompt composition,
payload construction, response normalization) are embedded directly.
-/

/-- JSON values as produced by Python's json module.  Numbers are modelled
as integers (every numeric literal relevant to this program is integral;
non-integral numbers are out of this model's scope). -/
inductive Json where
  | null : Json
  | bool (b : Bool) : Json
  | num (n : Int) : Json
  | str (s : String) : Json
  | arr (elems : List Json) : Json
  | obj (fields : List (String × Json)) : Json

/-- Python dict lookup on a JSON object's field list (`d.get(k)` without
default): the value of the first field named `k`, if any.  Python dicts
have unique keys, so taking the first binding is faithful. -/
def lookupField (fs : List (String × Json)) (k : String) : Option Json :=
  (fs.find? (fun p => p.1 == k)).map (fun p => p.2)

/-- Python truthiness of a JSON value (`bool(x)` for the decoded value). -/
def truthy : Json → Bool
  | .null => false
  | .bool b => b
  | .num n => n != 0
  | .str s => s != ""
  | .arr xs => !xs.isEmpty
  | .obj fs => !fs.isEmpty

/-- Python `a or b` on decoded JSON values: `a` if truthy, else `b`. -/
def pyOr (a b : Json) : Json := if truthy a then a else b

/-- Whitespace characters removed by Python's `str.strip()` (the ASCII
whitespace actually relevant to model replies). -/
def pyWs : Char → Bool
  | ' ' => true
  | '\t' => true
  | '\n' => true
  | '\r' => true
  | '\x0b' => true
  | '\x0c' => true
  | _ => false

/-- Characters of `str.strip()`: drop `pyWs` characters from both ends. -/
def pyStripChars (l : List Char) : List Char :=
  ((l.dropWhile pyWs).reverse.dropWhile pyWs).reverse

/-- Python `s.strip()`. -/
def pyStrip (s : String) : String := ⟨pyStripChars s.data⟩

/-- Replace every (leftmost, non-overlapping) occurrence of `pat` by `rep`,
scanning left to right, exactly as Python's `str.replace` does for a
non-empty pattern.  `fuel` bounds the recursion; one character is consumed
per step, so `fuel = input length` always suffices. -/
def replaceAllAux (pat rep : List Char) : Nat → List Char → List Char
  | _, [] => []
  | 0, l => l
  | fuel + 1, c :: rest =>
    if pat.isPrefixOf (c :: rest) then
      rep ++ replaceAllAux pat rep fuel (List.drop (pat.length - 1) rest)
    else
      c :: replaceAllAux pat rep fuel rest

/-- Python `s.replace(pat, rep)` (for the non-empty patterns this program
uses). -/
def pyReplace (s pat rep : String) : String :=
  ⟨replaceAllAux pat.data rep.data s.data.length s.data⟩

/-- Python code-point slicing `s[:n]`. -/
def pySlice (s : String) (n : Nat) : String := ⟨s.data.take n⟩

/-- JSON whitespace skipped by the decoder. -/
def jsonWs : Char → Bool
  | ' ' => true
  | '\t' => true
  | '\n' => true
  | '\r' => true
  | _ => false

/-- The single-character JSON string escapes and their decodings. -/
def jsonEscapeTable : List (Char × Char) :=
  [('"', '"'), ('\\', '\\'), ('/', '/'), ('n', '\n'),
   ('t', '\t'), ('r', '\r'), ('b', '\x08'), ('f', '\x0c')]

/-- Decoding of a single-character JSON string escape, by table lookup. -/
def jsonEscape (c : Char) : Option Char :=
  (jsonEscapeTable.find? (fun p => p.1 == c)).map (fun p => p.2)

/-- Parse the body of a JSON string (the opening quote already consumed):
returns the decoded content and the input after the closing quote. -/
def parseJString : List Char → Option (List Char × List Char)
  | [] => none
  | '"' :: rest => some ([], rest)
  | '\\' :: [] => none
  | '\\' :: c :: rest =>
    match jsonEscape c with
    | none => none
    | some e =>
      match parseJString rest with
      | none => none
      | some (s, r) => some (e :: s, r)
  | c :: rest =>
    match parseJString rest with
    | none => none
    | some (s, r) => some (c :: s, r)

/-- Accumulate decimal digits. -/
def digitsAcc (acc : Nat) : List Char → Nat × List Char
  | c :: rest =>
    if c.isDigit then digitsAcc (acc * 10 + (c.toNat - 48)) rest
    else (acc, c :: rest)
  | [] => (acc, [])

/-- Consume the tail of a literal keyword (after its first character has
been inspected), or fail. -/
def stripLit (kw : String) (cs : List Char) : Option (List Char) :=
  if kw.data.isPrefixOf cs then some (cs.drop kw.data.length) else none

/-- Parse a JSON integer literal (this model rejects fractional and
exponent forms; app.py never relies on them). -/
def parseJNum : List Char → Option (Int × List Char)
  | '-' :: c :: rest =>
    if c.isDigit then
      let p := digitsAcc (c.toNat - 48) rest
      match p.2 with
      | '.' :: _ => none
      | 'e' :: _ => none
      | 'E' :: _ => none
      | _ => some (-(p.1 : Int), p.2)
    else none
  | c :: rest =>
    if c.isDigit then
      let p := digitsAcc (c.toNat - 48) rest
      match p.2 with
      | '.' :: _ => none
      | 'e' :: _ => none
      | 'E' :: _ => none
      | _ => some ((p.1 : Int), p.2)
    else none
  | [] => none

mutual

/-- Recursive-descent JSON value parser (a model of Python's
`json.loads` grammar on the integral fragment).  `fuel` bounds nesting;
`json_loads` supplies enough for any input. -/
def parseJVal : Nat → List Char → Except String (Json × List Char)
  | 0, _ => .error "Expecting value: recursion limit"
  | fuel + 1, cs =>
    match List.dropWhile jsonWs cs with
    | [] => .error "Expecting value"
    | 'n' :: rest =>
      (match stripLit "ull" rest with
       | some r => .ok (.null, r)
       | none => .error "Expecting value")
    | 't' :: rest =>
      (match stripLit "rue" rest with
       | some r => .ok (.bool true, r)
       | none => .error "Expecting value")
    | 'f' :: rest =>
      (match stripLit "alse" rest with
       | some r => .ok (.bool false, r)
       | none => .error "Expecting value")
    | '"' :: rest =>
      match parseJString rest with
      | some (s, r) => .ok (.str ⟨s⟩, r)
      | none => .error "Unterminated string"
    | '[' :: rest =>
      (match List.dropWhile jsonWs rest with
       | ']' :: r => .ok (.arr [], r)
       | rest2 =>
         match parseJItems fuel rest2 with
         | .ok (xs, r) => .ok (.arr xs, r)
         | .error e => .error e)
    | '\x7b' :: rest =>
      (match List.dropWhile jsonWs rest with
       | '\x7d' :: r => .ok (.obj [], r)
       | rest2 =>
         match parseJMembers fuel rest2 with
         | .ok (ms, r) => .ok (.obj ms, r)
         | .error e => .error e)
    | cs2 =>
      match parseJNum cs2 with
      | some (n, r) => .ok (.num n, r)
      | none => .error "Expecting value"

/-- Parse the remaining comma-separated elements of a non-empty array. -/
def parseJItems : Nat → List Char → Except String (List Json × List Char)
  | 0, _ => .error "Expecting value: recursion limit"
  | fuel + 1, cs =>
    match parseJVal fuel cs with
    | .error e => .error e
    | .ok (v, r) =>
      match List.dropWhile jsonWs r with
      | ',' :: r2 =>
        (match parseJItems fuel r2 with
         | .ok (vs, r3) => .ok (v :: vs, r3)
         | .error e => .error e)
      | ']' :: r2 => .ok ([v], r2)
      | _ => .error "Expecting comma delimiter"

/-- Parse the remaining members of a non-empty object. -/
def parseJMembers : Nat → List Char → Except String (List (String × Json) × List Char)
  | 0, _ => .error "Expecting value: recursion limit"
  | fuel + 1, cs =>
    match List.dropWhile jsonWs cs with
    | '"' :: rest =>
      (match parseJString rest with
       | none => .error "Unterminated string"
       | some (k, r) =>
         match List.dropWhile jsonWs r with
         | ':' :: r2 =>
           (match parseJVal fuel r2 with
            | .error e => .error e
            | .ok (v, r3) =>
              match List.dropWhile jsonWs r3 with
              | ',' :: r4 =>
                (match parseJMembers fuel r4 with
                 | .ok (ms, r5) => .ok ((⟨k⟩, v) :: ms, r5)
                 | .error e => .error e)
              | '\x7d' :: r4 => .ok ([(⟨k⟩, v)], r4)
              | _ => .error "Expecting comma delimiter"
           )
         | _ => .error "Expecting colon delimiter")
    | _ => .error "Expecting property name"

end

/-- The model of Python's `json.loads`: parse one JSON value and require
only whitespace after it; any failure is reported as an error message (in
Python, the raised `JSONDecodeError` converted to a string). -/
def json_loads (s : String) : Except String Json :=
  match parseJVal (s.length + 1) s.data with
  | .error e => .error e
  | .ok (j, rest) =>
    if (List.dropWhile jsonWs rest).isEmpty then .ok j else .error "Extra data"

/-!
Text extraction (src/app.py lines 35-54, `extract_text_from_pdf`).

The two PDF libraries are external collaborators, modelled by their
observable outcomes.  pdfplumber: `page.extract_text()` yields an optional
string per page (`none` models Python `None`); the whole `with`-block may
raise at any point, in which case the chunks appended before the failure
survive (`throwPartial done msg`).  fitz: `page.get_text()` yields a string
per page, or the library raises.
-/

/-- Outcome of the pdfplumber pass over the document. -/
inductive PdfPrimaryOutcome where
  | ok (pageTexts : List (Option String)) : PdfPrimaryOutcome
  | throwPartial (done : List (Option String)) (msg : String) : PdfPrimaryOutcome

/-- Outcome of the fitz fallback pass over the document. -/
inductive PdfFallbackOutcome where
  | ok (pageTexts : List String) : PdfFallbackOutcome
  | throw (msg : String) : PdfFallbackOutcome

/-- The pdfplumber loop body: `t = page.extract_text(); if t: chunks.append(t)` —
a page contributes a chunk only when its text is present and non-empty
(Python truthiness of an optional string). -/
def plumberChunks : List (Option String) → List String
  | [] => []
  | none :: rest => plumberChunks rest
  | some t :: rest => if t = "" then plumberChunks rest else t :: plumberChunks rest

/-- `extract_text_from_pdf` (src/app.py:35-54).  Primary path: blank-line
join of the truthy per-page texts.  On a primary failure, the fitz loop
appends every page's `get_text()` unconditionally after the chunks already
collected; if fitz also raises, the function returns `""`. -/
def extract_text_from_pdf (p : PdfPrimaryOutcome) (f : PdfFallbackOutcome) : String :=
  match p with
  | .ok ts => String.intercalate "\n\n" (plumberChunks ts)
  | .throwPartial done _ =>
    match f with
    | .ok fts => String.intercalate "\n\n" (plumberChunks done ++ fts)
    | .throw _ => ""

/-- The spec's per-page concatenation: per-page texts in page order, joined
by a blank line, skipping pages with no extractable text (stated from the
spec's words, for comparison with the code's two paths). -/
def specPageConcat (pageTexts : List (Option String)) : String :=
  String.intercalate "\n\n"
    (pageTexts.filterMap (fun t => match t with
      | none => none
      | some s => if s = "" then none else some s))

/-!
Gemini extraction (src/app.py lines 65-130).
-/

/-- `INVOICE_SCHEMA` (src/app.py:65-86), as the decoded JSON value. -/
def INVOICE_SCHEMA : Json :=
  .obj [("title", .str "InvoiceExtraction"),
        ("type", .str "object"),
        ("properties", .obj [
          ("extracted_pairs", .obj [
            ("type", .str "array"),
            ("items", .obj [
              ("type", .str "object"),
              ("properties", .obj [
                ("key", .obj [("type", .str "string")]),
                ("value", .obj [("type", .str "string")]),
                ("confidence", .obj [("type", .str "number")]),
                ("reason", .obj [("type", .str "string")])]),
              ("required", .arr [.str "key", .str "value"])])]),
          ("risk_level", .obj [("type", .str "string")]),
          ("summary", .obj [("type", .str "string")])]),
        ("required", .arr [.str "extracted_pairs"])]

/-- `SYSTEM_PROMPT` (src/app.py:88-99). -/
def SYSTEM_PROMPT : String :=
  "You are an assistant that MUST output only valid JSON matching the provided schema. " ++
  "You will be given an INVOICE document and a USER QUESTION. " ++
  "Identify the 5–8 most relevant key/value pairs that help answer the user's question. " ++
  "For each pair, include 'reason' and 'confidence' (0.0 - 1.0). " ++
  "Determine the 'risk_level' based on the invoice total amount as follows: " ++
  "High: total amount greater than 50,000; " ++
  "Medium: total amount between 5,000 and 50,000; " ++
  "Low: total amount less than 5,000; " ++
  "Use 'Unknown' if the total amount cannot be determined. " ++
  "Also include a short 'summary' of the invoice."

mutual

/-- Serialization of a JSON value with Python's `json.dumps` default
layout (item separator `", "`, key separator `": "`; the plain strings of
`INVOICE_SCHEMA` need no escaping). -/
def json_dumps : Json → String
  | .null => "null"
  | .bool b => if b then "true" else "false"
  | .num n => toString n
  | .str s => "\"" ++ s ++ "\""
  | .arr xs => "[" ++ jsonDumpsList xs ++ "]"
  | .obj fs => "\x7b" ++ jsonDumpsFields fs ++ "\x7d"

/-- Comma-joined serialization of array elements. -/
def jsonDumpsList : List Json → String
  | [] => ""
  | [x] => json_dumps x
  | x :: xs => json_dumps x ++ ", " ++ jsonDumpsList xs

/-- Comma-joined serialization of object members. -/
def jsonDumpsFields : List (String × Json) → String
  | [] => ""
  | [(k, v)] => "\"" ++ k ++ "\": " ++ json_dumps v
  | (k, v) :: fs => "\"" ++ k ++ "\": " ++ json_dumps v ++ ", " ++ jsonDumpsFields fs

end

/-- The `user_prompt` f-string of `call_gemini` (src/app.py:102-112):
document text truncated to its first 30,000 code points, then the
question, the serialized schema, and the fixed formatting rules. -/
def gemini_user_prompt (document_text user_question : String) : String :=
  "DOCUMENT:\n\"\"\"" ++ pySlice document_text 30000 ++ "\"\"\"\n\n" ++
  "USER QUESTION:\n\"\"\"" ++ user_question ++ "\"\"\"\n\n" ++
  "SCHEMA:\n" ++ json_dumps INVOICE_SCHEMA ++ "\n\n" ++
  "STRICT RULES:\n" ++
  "- Output ONLY valid JSON.\n" ++
  "- Do NOT use backticks.\n" ++
  "- Do NOT return markdown.\n" ++
  "- Do NOT explain.\n" ++
  "- Only return JSON matching the schema.\n"

/-- Observable behaviour of the remote Gemini call (src/app.py:116-122):
either the client raises (any transport/service failure, converted to a
message) or it yields the reply text. -/
inductive GeminiOutcome where
  | apiError (msg : String) : GeminiOutcome
  | reply (raw : String) : GeminiOutcome

/-- The cleaning applied to the raw reply before parsing
(src/app.py:126): `raw_text.strip().replace("```json", "").replace("```", "").strip()`. -/
def gemini_cleaned (raw : String) : String :=
  pyStrip (pyReplace (pyReplace (pyStrip raw) "```json" "") "```" "")

/-- `call_gemini` (src/app.py:101-130), as a function of the remote call's
outcome: a raised failure becomes the `error` record; otherwise the
cleaned reply is parsed, a parse failure becomes the
`raw_output`/`parse_error` record, and a successful parse is returned
as-is. -/
def call_gemini (outcome : GeminiOutcome) : Json :=
  match outcome with
  | .apiError e => .obj [("error", .str ("Gemini API call failed: " ++ e))]
  | .reply raw =>
    let cleaned := gemini_cleaned raw
    match json_loads cleaned with
    | .ok j => j
    | .error e => .obj [("raw_output", .str cleaned), ("parse_error", .str e)]

/-- The spec's `{error}` result shape: an object whose single field is a
string-valued `error`. -/
def isErrorShape : Json → Bool
  | .obj [("error", .str _)] => true
  | _ => false

/-- The spec's `{raw_output, parse_error}` result shape. -/
def isRawOutputShape : Json → Bool
  | .obj [("raw_output", .str _), ("parse_error", .str _)] => true
  | _ => false

/-- The spec's schema-conforming result shape: an object carrying an
`extracted_pairs` array (the schema's one required property). -/
def isSchemaShape : Json → Bool
  | .obj fs =>
    match lookupField fs "extracted_pairs" with
    | some (.arr _) => true
    | _ => false
  | _ => false

/-- The cleaning transformation exactly as claim C10 words it: every
occurrence of "```json" removed, then every occurrence of "```" removed,
with surrounding whitespace stripped. -/
def c10_global_removal (r : String) : String :=
  pyStrip (pyReplace (pyReplace (pyStrip r) "```json" "") "```" "")

/-- A model reply whose intended JSON payload itself contains fence-marker
substrings inside a string value. -/
def c10_reply : String := "\x7b\"note\":\"see ```json block```\"\x7d"

/-!
Email automation (src/app.py lines 162-209).
-/

/-- The fields of the webhook `payload` dict (src/app.py:166-172), in
construction order.  The `extracted_json` entry holds the extraction
result value itself. -/
def build_payload_fields (raw_text : String) (extraction : Json)
    (user_question recipient file_name : String) : List (String × Json) :=
  [("document_text", .str (pySlice raw_text 50000)),
   ("extracted_json", extraction),
   ("user_question", .str user_question),
   ("recipient_email", .str recipient),
   ("file_name", .str file_name)]

/-- The webhook `payload` as a JSON object. -/
def build_payload (raw_text : String) (extraction : Json)
    (user_question recipient file_name : String) : Json :=
  .obj (build_payload_fields raw_text extraction user_question recipient file_name)

/-- User-visible / outbound effects of the send-mail branch. -/
inductive UiEffect where
  | warning (msg : String) : UiEffect
  | httpPost (url : String) (body : Json) : UiEffect
  | successMsg (msg : String) : UiEffect
  | errorMsg (msg : String) : UiEffect

/-- Whether an effect is an outbound HTTP call. -/
def isHttpPost : UiEffect → Bool
  | .httpPost _ _ => true
  | _ => false

/-- Observable outcome of the webhook POST (src/app.py:175-177): a 2xx
reply with a decoded JSON body, or any raised failure (transport error or
non-2xx status via `raise_for_status`). -/
inductive WebhookOutcome where
  | ok (resp : Json) : WebhookOutcome
  | fail (msg : String) : WebhookOutcome

/-- The send-button branch (src/app.py:162-181), up to the response
processing: with a falsy (empty) recipient only a warning is emitted and
nothing else happens; otherwise the payload is POSTed once and the
success or error message follows.  Purely presentational effects of the
later response rendering are not part of this trace. -/
def send_button_branch (recipient raw_text user_question file_name url : String)
    (extraction : Json) (wo : WebhookOutcome) : List UiEffect :=
  if recipient = "" then
    [.warning "Please provide a recipient email before sending."]
  else
    .httpPost url (build_payload raw_text extraction user_question recipient file_name) ::
      (match wo with
       | .ok _ => [.successMsg "Webhook called successfully."]
       | .fail e => [.errorMsg ("Failed to call n8n webhook: " ++ e)])

/-- The n8n response normalization (src/app.py:184-190).  A list maps to
element 0's `json` field (or element 0 itself; an empty list to `{}`); a
dict maps to its `json` field (or itself); anything else maps to `{}`.
`x.get(...)` on a non-dict element 0 raises (`AttributeError`), which the
surrounding `try` turns into the raw-response display path — modelled as
the `error` case. -/
def normalize_n8n : Json → Except String Json
  | .arr [] => .ok (.obj [])
  | .arr (x :: _) =>
    (match x with
     | .obj fs => .ok ((lookupField fs "json").getD (.obj fs))
     | _ => .error "AttributeError")
  | .obj fs => .ok ((lookupField fs "json").getD (.obj fs))
  | _ => .ok (.obj [])

/-- `n8n_data.get(k)` (src/app.py:192-194): a missing key reads as Python
`None`, i.e. JSON null. -/
def n8nGet (fs : List (String × Json)) (k : String) : Json :=
  (lookupField fs k).getD .null

/-- `final_answer = n8n_data.get("final_answer") or n8n_data.get("finalAnswer")`
(src/app.py:192). -/
def n8n_final_answer (fs : List (String × Json)) : Json :=
  pyOr (n8nGet fs "final_answer") (n8nGet fs "finalAnswer")

/-- `email_body = n8n_data.get("email_body") or n8n_data.get("emailBody")`
(src/app.py:193). -/
def n8n_email_body (fs : List (String × Json)) : Json :=
  pyOr (n8nGet fs "email_body") (n8nGet fs "emailBody")

/-- `status = n8n_data.get("automation_status") or n8n_data.get("status")`
(src/app.py:194). -/
def n8n_status (fs : List (String × Json)) : Json :=
  pyOr (n8nGet fs "automation_status") (n8nGet fs "status")

/-- Modelled from the spec: the `risk_level` classification.  No code in
src/ computes it — it exists only as the natural-language instruction of
`SYSTEM_PROMPT` (src/app.py:93-97), executed by the remote model.  The
rules, in the prompt's order: High for a total greater than 50,000;
Medium for a total between 5,000 and 50,000; Low for a total less than
5,000; Unknown when the total cannot be determined (`none`). -/
def risk_level_of_total : Option ℚ → String
  | none => "Unknown"
  | some t =>
    if 50000 < t then "High"
    else if 5000 ≤ t ∧ t ≤ 50000 then "Medium"
    else if t < 5000 then "Low"
    else "Unknown"

/-! Helper lemmas. -/

/-- The pdfplumber chunk loop collects exactly the truthy page texts, in
order. -/
theorem plumberChunks_eq_filterMap (ts : List (Option String)) :
    plumberChunks ts = ts.filterMap (fun t => match t with
      | none => none
      | some s => if s = "" then none else some s) := by
  induction ts with
  | nil => rfl
  | cons t rest ih =>
    cases t with
    | none => simpa [plumberChunks] using ih
    | some s =>
      by_cases h : s = "" <;> simp [plumberChunks, h, ih]

/-- C1 counterexample: a reply that is valid JSON but not an object — the
code returns the parsed value `[]` unchanged, which is none of the three
ExtractionResult shapes. -/
theorem claim_C1_counterexample :
    call_gemini (.reply "[]") = Json.arr [] ∧
    isErrorShape (call_gemini (.reply "[]")) = false ∧
    isRawOutputShape (call_gemini (.reply "[]")) = false ∧
    isSchemaShape (call_gemini (.reply "[]")) = false :=
  ⟨rfl, rfl, rfl, rfl⟩

/-- C1 (amended): `call_gemini` never raises and returns exactly one of —
the `{error}` record on a raised service failure (single attempt, no
retry); the `{raw_output, parse_error}` record when the cleaned reply
fails to parse; or, when parsing succeeds, the parsed JSON value itself,
which is whatever the model produced and need not be an object containing
an `extracted_pairs` array. -/
theorem claim_C1_amended (o : GeminiOutcome) :
    (∃ m, o = .apiError m ∧
      call_gemini o = .obj [("error", .str ("Gemini API call failed: " ++ m))]) ∨
    (∃ r e, o = .reply r ∧ json_loads (gemini_cleaned r) = .error e ∧
      call_gemini o = .obj [("raw_output", .str (gemini_cleaned r)),
                            ("parse_error", .str e)]) ∨
    (∃ r j, o = .reply r ∧ json_loads (gemini_cleaned r) = .ok j ∧
      call_gemini o = j) := by
  cases o with
  | apiError m => exact .inl ⟨m, rfl, rfl⟩
  | reply r =>
    cases h : json_loads (gemini_cleaned r) with
    | ok j => exact .inr (.inr ⟨r, j, rfl, h, by simp [call_gemini, h]⟩)
    | error e => exact .inr (.inl ⟨r, e, rfl, h, by simp [call_gemini, h]⟩)

/-- C2 counterexample: the primary pass raises immediately and the fitz
fallback sees page texts `["A", "", "B"]`; the fallback keeps the empty
page, producing `"A\n\n\n\nB"`, which differs from the spec's per-page
concatenation (blank-line join skipping pages with no text). -/
theorem claim_C2_counterexample :
    extract_text_from_pdf (.throwPartial [] "boom") (.ok ["A", "", "B"]) = "A\n\n\n\nB" ∧
    specPageConcat [some "A", some "", some "B"] = "A\n\nB" ∧
    extract_text_from_pdf (.throwPartial [] "boom") (.ok ["A", "", "B"]) ≠
      specPageConcat [some "A", some "", some "B"] := by
  refine ⟨rfl, rfl, ?_⟩
  decide

/-- C2 (amended): on the primary path the result is the spec's per-page
concatenation (blank-line join of per-page texts in order, skipping pages
with no extractable text); but when the primary pass raises, the fallback
appends every fitz page text unconditionally — empty pages included —
after whatever chunks the primary pass had already collected, and if the
fallback also raises the result is the empty string. -/
theorem claim_C2_amended (ts done : List (Option String)) (msg : String)
    (fts : List String) (fmsg : String) :
    (∀ fb, extract_text_from_pdf (.ok ts) fb = specPageConcat ts) ∧
    extract_text_from_pdf (.throwPartial done msg) (.ok fts) =
      String.intercalate "\n\n" (plumberChunks done ++ fts) ∧
    extract_text_from_pdf (.throwPartial done msg) (.throw fmsg) = "" := by
  refine ⟨fun fb => ?_, rfl, rfl⟩
  simp [extract_text_from_pdf, specPageConcat, plumberChunks_eq_filterMap]

/-- C3: prompt composition is a pure function of the document text and
question (the schema is fixed); only the first 30,000 code points of the
document influence the prompt, and the embedded slice has length
`min 30000 (length d)` — truncated, never expanded. -/
theorem claim_C3 (d q : String) :
    gemini_user_prompt d q = gemini_user_prompt (pySlice d 30000) q ∧
    (pySlice d 30000).length = min 30000 d.length := by
  constructor
  · have h : pySlice (pySlice d 30000) 30000 = pySlice d 30000 :=
      congrArg String.mk (by
        show (d.data.take 30000).take 30000 = d.data.take 30000
        simp [List.take_take])
    unfold gemini_user_prompt
    rw [h]
  · show (d.data.take 30000).length = min 30000 d.length
    exact List.length_take 30000 d.data

/-- C5: webhook-response normalization is the identity on an
already-normalized flat object — a dict with no `json` wrapper field maps
to itself. -/
theorem claim_C5 (fs : List (String × Json)) (h : lookupField fs "json" = none) :
    normalize_n8n (.obj fs) = .ok (.obj fs) := by
  simp [normalize_n8n, h]

/-- C5 witness: a concrete flat object is fixed by normalization. -/
theorem claim_C5_witness :
    lookupField [("automation_status", Json.str "sent")] "json" = none ∧
    normalize_n8n (.obj [("automation_status", Json.str "sent")]) =
      .ok (.obj [("automation_status", Json.str "sent")]) :=
  ⟨rfl, claim_C5 _ rfl⟩

/-- C6 counterexample: both spellings present, but the snake_case value is
the empty string (falsy), so Python's `or` yields the camelCase value —
the snake_case value is not the one used. -/
theorem claim_C6_counterexample :
    lookupField [("final_answer", Json.str ""), ("finalAnswer", Json.str "from camel")]
      "final_answer" = some (.str "") ∧
    lookupField [("final_answer", Json.str ""), ("finalAnswer", Json.str "from camel")]
      "finalAnswer" = some (.str "from camel") ∧
    n8n_final_answer [("final_answer", Json.str ""), ("finalAnswer", Json.str "from camel")] =
      .str "from camel" ∧
    Json.str "from camel" ≠ Json.str "" := by
  refine ⟨rfl, rfl, rfl, ?_⟩
  intro h
  injection h with h2
  exact absurd h2 (by decide)

/-- C6 (amended): each semantic field is read under its primary key and a
fallback key (`final_answer`/`finalAnswer`, `email_body`/`emailBody`,
`automation_status`/`status`); when both are present the primary
(snake_case) value is used only if it is truthy — a falsy primary value
(empty string, null, …) falls through to the fallback key's value. -/
theorem claim_C6_amended (fs : List (String × Json)) :
    (∀ v w, lookupField fs "final_answer" = some v →
      lookupField fs "finalAnswer" = some w →
      n8n_final_answer fs = if truthy v then v else w) ∧
    (∀ v w, lookupField fs "email_body" = some v →
      lookupField fs "emailBody" = some w →
      n8n_email_body fs = if truthy v then v else w) ∧
    (∀ v w, lookupField fs "automation_status" = some v →
      lookupField fs "status" = some w →
      n8n_status fs = if truthy v then v else w) := by
  refine ⟨?_, ?_, ?_⟩ <;>
    · intro v w hv hw
      simp [n8n_final_answer, n8n_email_body, n8n_status, n8nGet, pyOr, hv, hw]

/-- C6 witness: on a response carrying all six keys, a truthy snake_case
value wins, a falsy one falls through, and the status pair behaves the
same way. -/
theorem claim_C6_witness :
    n8n_final_answer
      [("final_answer", Json.str "analysis"), ("finalAnswer", Json.str "camelAnswer"),
       ("email_body", Json.str ""), ("emailBody", Json.str "camelBody"),
       ("automation_status", Json.str "sent"), ("status", Json.str "ok")] =
      .str "analysis" ∧
    n8n_email_body
      [("final_answer", Json.str "analysis"), ("finalAnswer", Json.str "camelAnswer"),
       ("email_body", Json.str ""), ("emailBody", Json.str "camelBody"),
       ("automation_status", Json.str "sent"), ("status", Json.str "ok")] =
      .str "camelBody" ∧
    n8n_status
      [("final_answer", Json.str "analysis"), ("finalAnswer", Json.str "camelAnswer"),
       ("email_body", Json.str ""), ("emailBody", Json.str "camelBody"),
       ("automation_status", Json.str "sent"), ("status", Json.str "ok")] =
      .str "sent" := by
  obtain ⟨h1, h2, h3⟩ := claim_C6_amended
    [("final_answer", Json.str "analysis"), ("finalAnswer", Json.str "camelAnswer"),
     ("email_body", Json.str ""), ("emailBody", Json.str "camelBody"),
     ("automation_status", Json.str "sent"), ("status", Json.str "ok")]
  exact ⟨(h1 _ _ rfl rfl).trans rfl, (h2 _ _ rfl rfl).trans rfl, (h3 _ _ rfl rfl).trans rfl⟩

/-- C7: the constructed automation payload carries the extraction result
itself under `extracted_json` — the very same JSON value, with no
re-serialization. -/
theorem claim_C7 (raw_text : String) (extraction : Json)
    (user_question recipient file_name : String) :
    lookupField (build_payload_fields raw_text extraction user_question recipient file_name)
      "extracted_json" = some extraction := rfl

/-- C8: pressing send with an empty (falsy) recipient emits exactly the
warning and nothing else — in particular the trace contains zero HTTP
calls, so the webhook POST happens only for a non-empty recipient. -/
theorem claim_C8 (raw_text user_question file_name url : String)
    (extraction : Json) (wo : WebhookOutcome) :
    send_button_branch "" raw_text user_question file_name url extraction wo =
      [.warning "Please provide a recipient email before sending."] ∧
    (send_button_branch "" raw_text user_question file_name url extraction wo).countP
      isHttpPost = 0 :=
  ⟨rfl, rfl⟩

/-- C9: the risk-level classification (modelled from the SYSTEM_PROMPT
instruction, which is its only source) is a pure function of the total:
above 50,000 High, in [5,000, 50,000] Medium (boundaries inclusive),
below 5,000 Low, indeterminate Unknown; in particular 50,001 is High,
5,000 is Medium and 4,999 is Low. -/
theorem claim_C9 (t : ℚ) :
    (50000 < t → risk_level_of_total (some t) = "High") ∧
    (5000 ≤ t ∧ t ≤ 50000 → risk_level_of_total (some t) = "Medium") ∧
    (t < 5000 → risk_level_of_total (some t) = "Low") ∧
    risk_level_of_total none = "Unknown" ∧
    risk_level_of_total (some 50001) = "High" ∧
    risk_level_of_total (some 5000) = "Medium" ∧
    risk_level_of_total (some 4999) = "Low" := by
  refine ⟨?_, ?_, ?_, rfl, ?_, ?_, ?_⟩
  · intro h
    simp [risk_level_of_total, h]
  · rintro ⟨h1, h2⟩
    have hn : ¬ 50000 < t := not_lt.mpr h2
    simp [risk_level_of_total, hn, h1, h2]
  · intro h
    have h2 : ¬ 50000 < t := by linarith
    have h3 : ¬ (5000 ≤ t ∧ t ≤ 50000) := by
      rintro ⟨a, _⟩
      linarith
    simp [risk_level_of_total, h2, h3, h]
  · norm_num [risk_level_of_total]
  · norm_num [risk_level_of_total]
  · norm_num [risk_level_of_total]

/-- C9 witness: concrete totals on each side of the thresholds. -/
theorem claim_C9_witness :
    risk_level_of_total (some 51000) = "High" ∧
    risk_level_of_total (some 6000) = "Medium" ∧
    risk_level_of_total (some 100) = "Low" :=
  ⟨(claim_C9 51000).1 (by norm_num),
   (claim_C9 6000).2.1 ⟨by norm_num, by norm_num⟩,
   (claim_C9 100).2.2.1 (by norm_num)⟩

/-- C10: the text handed to the JSON parser is the reply with every
occurrence of "```json" and then of "```" removed globally and the
surrounding whitespace stripped; the removal also hits occurrences inside
JSON string values, so `c10_reply` — valid JSON whose `note` string
contains fence-marker substrings — is altered before parsing, and
`call_gemini` returns the altered inner value. -/
theorem claim_C10 (r : String) :
    gemini_cleaned r = c10_global_removal r ∧
    json_loads c10_reply = .ok (.obj [("note", .str "see ```json block```")]) ∧
    gemini_cleaned c10_reply = "\x7b\"note\":\"see  block\"\x7d" ∧
    gemini_cleaned c10_reply ≠ pyStrip c10_reply ∧
    call_gemini (.reply c10_reply) = .obj [("note", .str "see  block")] := by
  refine ⟨rfl, rfl, rfl, ?_, rfl⟩
  decide

/-- A non-empty pattern is a `isPrefixOf`-prefix of itself followed by
anything. -/
theorem isPrefixOf_append_self (l r : List Char) : l.isPrefixOf (l ++ r) = true := by
  induction l with
  | nil => simp [List.isPrefixOf]
  | cons a t ih => simp [List.isPrefixOf, ih]

/-- A pattern starting with `p` matches no list starting with a different
character. -/
theorem isPrefixOf_cons_of_ne {p c : Char} (pt rest : List Char) (h : c ≠ p) :
    (p :: pt).isPrefixOf (c :: rest) = false := by
  have hb : (p == c) = false := beq_eq_false_iff_ne.mpr (Ne.symm h)
  simp [List.isPrefixOf, hb]

/-- One replacement step at an exact pattern occurrence at the head of the
input. -/
theorem replaceAllAux_head (pat rep l₂ : List Char) (fuel : Nat) (hpat : pat ≠ []) :
    replaceAllAux pat rep (fuel + 1) (pat ++ l₂) = rep ++ replaceAllAux pat rep fuel l₂ := by
  cases pat with
  | nil => exact absurd rfl hpat
  | cons p pt =>
    show replaceAllAux (p :: pt) rep (fuel + 1) (p :: (pt ++ l₂)) = _
    rw [replaceAllAux]
    rw [if_pos (by exact_mod_cast isPrefixOf_append_self (p :: pt) l₂)]
    have hd : List.drop ((p :: pt).length - 1) (pt ++ l₂) = l₂ := by
      rw [List.length_cons, Nat.add_sub_cancel]
      exact List.drop_left pt l₂
    rw [hd]

/-- Replacement walks over a span containing no occurrence of the
pattern's first character, leaving it unchanged. -/
theorem replaceAllAux_skip (p : Char) (pt rep : List Char) :
    ∀ (l₁ l₂ : List Char) (fuel : Nat), (∀ c ∈ l₁, c ≠ p) →
      replaceAllAux (p :: pt) rep (l₁.length + fuel) (l₁ ++ l₂) =
        l₁ ++ replaceAllAux (p :: pt) rep fuel l₂ := by
  intro l₁
  induction l₁ with
  | nil => intro l₂ fuel _; simp
  | cons c t ih =>
    intro l₂ fuel h
    have hc : c ≠ p := h c (List.mem_cons_self c t)
    have ht : ∀ x ∈ t, x ≠ p := fun x hx => h x (List.mem_cons_of_mem _ hx)
    have harith : (c :: t).length + fuel = (t.length + fuel) + 1 := by
      rw [List.length_cons]
      omega
    rw [harith]
    show replaceAllAux (p :: pt) rep ((t.length + fuel) + 1) (c :: (t ++ l₂)) = _
    rw [replaceAllAux]
    rw [if_neg (by simp [isPrefixOf_cons_of_ne pt (t ++ l₂) hc])]
    rw [ih l₂ fuel ht]
    rfl

/-- Stripping is the identity when both ends of the list are
non-whitespace. -/
theorem pyStripChars_eq_self (l : List Char) (a b : Char)
    (ha : l.head? = some a) (hwa : pyWs a = false)
    (hb : l.reverse.head? = some b) (hwb : pyWs b = false) :
    pyStripChars l = l := by
  unfold pyStripChars
  obtain ⟨t, rfl⟩ : ∃ t, l = a :: t := by
    cases l with
    | nil => exact absurd ha (by simp)
    | cons x xs => exact ⟨xs, by injection ha with h2; rw [h2]⟩
  rw [List.dropWhile_cons_of_neg (by simp [hwa])]
  obtain ⟨r, hr⟩ : ∃ r, (a :: t).reverse = b :: r := by
    cases hrev : (a :: t).reverse with
    | nil => rw [hrev] at hb; exact absurd hb (by simp)
    | cons x xs =>
      rw [hrev] at hb
      injection hb with h2
      exact ⟨xs, by rw [h2]⟩
  rw [hr, List.dropWhile_cons_of_neg (by simp [hwb]), ← hr, List.reverse_reverse]

/-- Stripping absorbs a single padding blank on each side. -/
theorem pyStripChars_pad (l : List Char) :
    pyStripChars (' ' :: (l ++ [' '])) = pyStripChars l := by
  unfold pyStripChars
  rw [List.dropWhile_cons_of_pos (by decide)]
  rw [List.dropWhile_append]
  by_cases hE : (List.dropWhile pyWs l).isEmpty
  · rw [if_pos hE]
    have h0 : List.dropWhile pyWs l = [] := List.isEmpty_iff.mp hE
    rw [h0]
    rfl
  · rw [if_neg hE]
    rw [List.reverse_append]
    show List.reverse (List.dropWhile pyWs ([' '] ++ (List.dropWhile pyWs l).reverse)) = _
    rw [List.dropWhile_append]
    rw [if_pos (by decide)]

/-- C4: a model reply that is valid JSON wrapped in markdown code-fence
markers (the wrapped body itself containing no backticks) has the fences
stripped by `call_gemini`, and the parsed inner JSON value is returned. -/
theorem claim_C4 (body : String) (j : Json)
    (hb : ∀ c ∈ body.data, c ≠ '`')
    (hp : json_loads (pyStrip body) = .ok j) :
    call_gemini (.reply ("```json " ++ body ++ " ```")) = j := by
  have hdata : ("```json " ++ body ++ " ```").data =
      "```json ".data ++ (body.data ++ " ```".data) := by
    rw [String.data_append, String.data_append, List.append_assoc]
  have hhead : ("```json " ++ body ++ " ```").data.head? = some '`' := by
    rw [hdata]; rfl
  have hrev : ("```json " ++ body ++ " ```").data.reverse.head? = some '`' := by
    rw [hdata, List.reverse_append, List.reverse_append]
    rfl
  have h0 : pyStrip ("```json " ++ body ++ " ```") = ("```json " ++ body ++ " ```") := by
    show String.mk (pyStripChars ("```json " ++ body ++ " ```").data) = _
    rw [pyStripChars_eq_self _ '`' '`' hhead (by decide) hrev (by decide)]
  have hskipPremise : ∀ c ∈ (' ' :: body.data), c ≠ '`' := by
    intro c hc
    rcases List.mem_cons.mp hc with h | h
    · rw [h]; decide
    · exact hb c h
  have h1 : pyReplace ("```json " ++ body ++ " ```") "```json" "" =
      String.mk (' ' :: (body.data ++ " ```".data)) := by
    show String.mk (replaceAllAux "```json".data "".data
        ("```json " ++ body ++ " ```").data.length ("```json " ++ body ++ " ```").data) = _
    congr 1
    rw [hdata]
    have hfl : ("```json ".data ++ (body.data ++ " ```".data)).length =
        (body.data.length + 11) + 1 := by
      simp
    rw [hfl]
    have hsplit : "```json ".data ++ (body.data ++ " ```".data) =
        "```json".data ++ (' ' :: (body.data ++ " ```".data)) := rfl
    rw [hsplit]
    rw [replaceAllAux_head "```json".data "".data _ _ (by decide)]
    have hsplit2 : (' ' :: (body.data ++ " ```".data)) =
        (' ' :: body.data) ++ " ```".data := by simp
    have hfl2 : body.data.length + 11 = (' ' :: body.data).length + 10 := by
      rw [List.length_cons]
    rw [hsplit2, hfl2]
    rw [show ("```json".data : List Char) = '`' :: "``json".data from rfl]
    rw [replaceAllAux_skip '`' "``json".data "".data (' ' :: body.data) " ```".data 10
        hskipPremise]
    rw [show replaceAllAux ('`' :: "``json".data) "".data 10 " ```".data = " ```".data from rfl]
    simp
  have h2 : pyReplace (String.mk (' ' :: (body.data ++ " ```".data))) "```" "" =
      String.mk (' ' :: (body.data ++ [' '])) := by
    show String.mk (replaceAllAux "```".data "".data
        (' ' :: (body.data ++ " ```".data)).length (' ' :: (body.data ++ " ```".data))) = _
    congr 1
    have hsplit2 : (' ' :: (body.data ++ " ```".data)) =
        (' ' :: body.data) ++ " ```".data := by simp
    have hfl : (' ' :: (body.data ++ " ```".data)).length =
        (' ' :: body.data).length + 4 := by
      simp
    rw [hfl, hsplit2]
    rw [show ("```".data : List Char) = '`' :: "``".data from rfl]
    rw [replaceAllAux_skip '`' "``".data "".data (' ' :: body.data) " ```".data 4
        hskipPremise]
    rw [show replaceAllAux ('`' :: "``".data) "".data 4 " ```".data = [' '] from rfl]
    simp
  have h3 : pyStrip (String.mk (' ' :: (body.data ++ [' ']))) = pyStrip body :=
    congrArg String.mk (pyStripChars_pad body.data)
  have hclean : gemini_cleaned ("```json " ++ body ++ " ```") = pyStrip body := by
    unfold gemini_cleaned
    rw [h0, h1, h2, h3]
  show call_gemini (.reply ("```json " ++ body ++ " ```")) = j
  simp [call_gemini, hclean, hp]

/-- C4 witness: the spec's end-to-end scenario 4 — the reply
"```json {"extracted_pairs":[]} ```" has its fences stripped and parses
to the object with an empty `extracted_pairs` array. -/
theorem claim_C4_witness :
    (∀ c ∈ ("\x7b\"extracted_pairs\":[]\x7d" : String).data, c ≠ '`') ∧
    json_loads (pyStrip "\x7b\"extracted_pairs\":[]\x7d") =
      .ok (.obj [("extracted_pairs", .arr [])]) ∧
    call_gemini (.reply ("```json " ++ "\x7b\"extracted_pairs\":[]\x7d" ++ " ```")) =
      .obj [("extracted_pairs", .arr [])] :=
  ⟨by decide, rfl, claim_C4 _ _ (by decide) rfl⟩
